import Mathlib

/-!
Formal model of the persistence and prompt-assembly pipeline of a
single-file Streamlit chat application (src/app.py).

The application keeps chat turns in a SQLite table
`chat(id INTEGER PRIMARY KEY AUTOINCREMENT, session_id, role, content,
timestamp DATETIME DEFAULT CURRENT_TIMESTAMP)` written through
`save_message` and read through `load_chat_history` (SELECT role, content,
timestamp ... WHERE session_id = ? ORDER BY timestamp).  Independently,
the LangChain `RunnableWithMessageHistory` wrapper persists the very same
turns in LangChain's own `SQLChatMessageHistory` store (a separate
`message_store` table in the same database file), and it is that second
store — not `load_chat_history` — that supplies the history messages
placed into the model prompt.

Modelling choices:
- SQLite `TEXT` values are Lean `String`s; the `timestamp` column (a
  `CURRENT_TIMESTAMP` text of the form `YYYY-MM-DD HH:MM:SS`) is compared
  with `strLe`, a code-point-wise lexicographic comparison that models
  SQLite's BINARY collation on such ASCII text.
- `ORDER BY timestamp` is modelled as a stable insertion sort by the
  timestamp column of the rows in `id` (insertion) order, which is how the
  single-connection table scan behaves.
- The auto-increment `id` is `ChatDB.nextId`; `CURRENT_TIMESTAMP` values
  are passed in explicitly as arguments, with monotonicity hypotheses
  where a claim depends on the single-writer wall clock being monotone.
- Python's `.upper()` and `"sep".join(...)` are modelled by `py_upper`
  and `py_join` (ASCII uppercase suffices for the roles stored here).
- The hosted completion endpoint is an oracle argument
  `List (String × String) → Except String String`; a raised exception is
  the `Except.error` branch, observed by the caller of the submit handler.
-/

/-- Code-point-wise lexicographic comparison of character lists, the
BINARY collation SQLite applies to TEXT columns (byte order coincides with
code-point order on the ASCII timestamps stored here). -/
def strListLe : List Char → List Char → Bool
  | [], _ => true
  | _ :: _, [] => false
  | a :: as, b :: bs =>
    if a.toNat < b.toNat then true
    else if b.toNat < a.toNat then false
    else strListLe as bs

/-- Comparison of two TEXT values as SQLite's `ORDER BY` compares them. -/
def strLe (a b : String) : Bool := strListLe a.data b.data

/-- One row of the `chat` table:
`(id, session_id, role, content, timestamp)`. -/
structure ChatRow where
  id : Nat
  session_id : String
  role : String
  content : String
  timestamp : String
deriving DecidableEq, Repr

/-- The `chat` table: rows in insertion order together with the next
auto-increment id. -/
structure ChatDB where
  rows : List ChatRow
  nextId : Nat
deriving DecidableEq, Repr

/-- The freshly created (empty) `chat` table. -/
def ChatDB.empty : ChatDB := ⟨[], 0⟩

/-- Model of `save_message(session_id, role, content)` (src/app.py lines
33-36): one INSERT that lets the store assign the id and the timestamp
`t` (the CURRENT_TIMESTAMP at execution time). -/
def save_message (db : ChatDB) (session_id role content t : String) : ChatDB :=
  { rows := db.rows ++ [⟨db.nextId, session_id, role, content, t⟩],
    nextId := db.nextId + 1 }

/-- Ordering of rows used by `ORDER BY timestamp`. -/
def rowLe (a b : ChatRow) : Prop := strLe a.timestamp b.timestamp = true

instance : DecidableRel rowLe := fun a b =>
  inferInstanceAs (Decidable (strLe a.timestamp b.timestamp = true))

/-- The rows `SELECT ... WHERE session_id = ? ORDER BY timestamp` visits,
before projection: the session's rows, stably sorted by timestamp. -/
def load_rows (db : ChatDB) (sid : String) : List ChatRow :=
  List.insertionSort rowLe (db.rows.filter (fun r => r.session_id == sid))

/-- Model of `load_chat_history(session_id)` (src/app.py lines 39-42):
`SELECT role, content, timestamp FROM chat WHERE session_id = ?
ORDER BY timestamp`, returning the fetched tuples. -/
def load_chat_history (db : ChatDB) (sid : String) : List (String × String × String) :=
  (load_rows db sid).map (fun r => (r.role, r.content, r.timestamp))

/-- ASCII uppercase of one character, as Python's `str.upper` maps it. -/
def py_upper_char (c : Char) : Char :=
  if 97 ≤ c.toNat ∧ c.toNat ≤ 122 then Char.ofNat (c.toNat - 32) else c

/-- Model of Python's `str.upper()` (the roles stored here are ASCII). -/
def py_upper (s : String) : String := ⟨s.data.map py_upper_char⟩

/-- Model of Python's `sep.join(pieces)`. -/
def py_join (sep : String) : List String → String
  | [] => ""
  | [a] => a
  | a :: rest => a ++ sep ++ py_join sep rest

/-- Model of the Export Chat handler's
`"\n\n".join(f"{row[0].upper()}[{row[2]}]: {row[1]}" for row in chat_data)`
(src/app.py lines 109-118), applied to the `(role, content, timestamp)`
tuples returned by `load_chat_history`. -/
def export_text (chat_data : List (String × String × String)) : String :=
  py_join "\n\n"
    (chat_data.map (fun row => py_upper row.1 ++ "[" ++ row.2.2 ++ "]: " ++ row.2.1))

/-- The fixed system instruction of the chat prompt template
(src/app.py lines 143-147). -/
def system_instruction : String :=
  "You are an AI assistant specialized in Data Science tutoring.
                      You will only answer questions related to Data Science.
                      Provide code examples with proper syntax highlighting when relevant.
                      If asked anything outside this topic, politely decline and request a Data Science-related question.
                   "

/-- Model of `chat_prompt` (src/app.py lines 141-151): the system
instruction, then the history placeholder (possibly empty), then the new
human message, each as a (role, content) pair. -/
def build_prompt (history : List (String × String)) (user_message : String) :
    List (String × String) :=
  ("system", system_instruction) :: (history ++ [("human", user_message)])

/-- One LangChain message in the `SQLChatMessageHistory` store: the
wrapper appends a `HumanMessage` and an `AIMessage` per exchange. -/
inductive LCMsg where
  | human (content : String)
  | ai (content : String)
deriving DecidableEq, Repr

/-- The (role, content) pair a LangChain message contributes to the
prompt (`HumanMessage.type = "human"`, `AIMessage.type = "ai"`). -/
def LCMsg.toPair : LCMsg → String × String
  | .human c => ("human", c)
  | .ai c => ("ai", c)

/-- Messages the LangChain store returns for a session: its
`message_store` rows for that session in insertion (id) order. -/
def loadMessageStore (ms : List (String × LCMsg)) (sid : String) : List LCMsg :=
  (ms.filter (fun p => p.1 == sid)).map (fun p => p.2)

/-- State of one running app instance: the Streamlit session id, the
`chat` table, LangChain's `message_store` table, and the
`st.session_state.messages` display cache. -/
structure AppState where
  session_id : String
  chatDB : ChatDB
  msgStore : List (String × LCMsg)
  messages : List (String × String × String)
deriving DecidableEq, Repr

/-- A fresh app start on an empty database: a new uuid session id, both
stores empty, no cached display messages. -/
def initState (sid : String) : AppState :=
  { session_id := sid, chatDB := ChatDB.empty, msgStore := [], messages := [] }

/-- The history messages `RunnableWithMessageHistory` supplies to the
prompt template for the current session (src/app.py lines 156-161):
LangChain's store contents, as (role, content) pairs. -/
def promptHistory (st : AppState) : List (String × String) :=
  (loadMessageStore st.msgStore st.session_id).map LCMsg.toPair

/-- The state after the success path of the submit handler (src/app.py
lines 196-205): user row saved to `chat` (timestamp `t1`), the chain runs
and `RunnableWithMessageHistory` appends the human and ai messages to
`message_store`, the assistant row is saved to `chat` (timestamp `t2`),
and the display cache gains both turns (`time.strftime` values `u1`,
`u2`). -/
def submit_success (st : AppState) (input resp t1 t2 u1 u2 : String) : AppState :=
  { st with
    chatDB := save_message (save_message st.chatDB st.session_id "user" input t1)
        st.session_id "assistant" resp t2,
    msgStore := st.msgStore ++
        [(st.session_id, .human input), (st.session_id, .ai resp)],
    messages := st.messages ++
        [("user", input, u1), ("assistant", resp, u2)] }

/-- Model of the whole submit handler `if submit_button and user_input:`
(src/app.py lines 196-205).  Python string truthiness makes only the
empty string skip the body.  Otherwise the user row is saved, the prompt
is built from the LangChain history plus the input, and the completion
oracle is consulted; an exception from the chain (Except.error) aborts
the script run after the user row and display entry are already in
place — nothing is written to `message_store` and no assistant row is
saved.  The first component is the error the caller observes, if any. -/
def submit (st : AppState) (input t1 t2 u1 u2 : String)
    (oracle : List (String × String) → Except String String) :
    Option String × AppState :=
  if input = "" then (none, st)
  else
    match oracle (build_prompt (promptHistory st) input) with
    | .error e =>
        (some e, { st with
          chatDB := save_message st.chatDB st.session_id "user" input t1,
          messages := st.messages ++ [("user", input, u1)] })
    | .ok resp => (none, submit_success st input resp t1 t2 u1 u2)

/-- Model of the New Chat handler (src/app.py lines 103-106): a fresh
uuid replaces the session id and the display cache is cleared; neither
database table is touched. -/
def reset_chat (st : AppState) (newId : String) : AppState :=
  { st with session_id := newId, messages := [] }

/-- N sequential `save_message` calls for one session, with the given
(role, content, timestamp) per call. -/
def appendTurns (db : ChatDB) (sid : String)
    (msgs : List (String × String × String)) : ChatDB :=
  msgs.foldl (fun d m => save_message d sid m.1 m.2.1 m.2.2) db

/-- The rows `appendTurns` creates, starting from auto-increment id `n`. -/
def mkRows (n : Nat) (sid : String) : List (String × String × String) → List ChatRow
  | [] => []
  | m :: ms => ⟨n, sid, m.1, m.2.1, m.2.2⟩ :: mkRows (n + 1) sid ms

/-- States reachable from a fresh start by successful submissions and
New Chat resets.  Timestamps grow monotonically (single-writer
CURRENT_TIMESTAMP) and each reset's uuid is fresh (uuid4 collisions are
ignored). -/
inductive ReachOk : AppState → Prop where
  | init (sid : String) : ReachOk (initState sid)
  | step (st : AppState) (input resp t1 t2 u1 u2 : String) :
      ReachOk st → input ≠ "" →
      (∀ r ∈ st.chatDB.rows, strLe r.timestamp t1 = true) →
      strLe t1 t2 = true →
      ReachOk (submit_success st input resp t1 t2 u1 u2)
  | reset (st : AppState) (newId : String) :
      ReachOk st →
      (∀ r ∈ st.chatDB.rows, r.session_id ≠ newId) →
      (∀ p ∈ st.msgStore, p.1 ≠ newId) →
      ReachOk (reset_chat st newId)

/-- Projection of the current session's `chat` rows to the (role,
content) pairs they would contribute to a prompt, with the table's
`user`/`assistant` role names mapped to LangChain's `human`/`ai`. -/
def roleToLC (role : String) : String :=
  if role == "user" then "human" else if role == "assistant" then "ai" else role

/-- The current session's `chat` rows as LangChain-style (role, content)
pairs, in insertion order. -/
def chatPairs (st : AppState) : List (String × String) :=
  (st.chatDB.rows.filter (fun r => r.session_id == st.session_id)).map
    (fun r => (roleToLC r.role, r.content))

/-- The current session's `message_store` rows as (role, content) pairs,
in insertion order. -/
def storePairs (st : AppState) : List (String × String) :=
  (st.msgStore.filter (fun p => p.1 == st.session_id)).map (fun p => p.2.toPair)

/-! Helper lemmas about the string comparison and the store. -/

/-- Transitivity of the code-point-wise comparison. -/
theorem strListLe_trans :
    ∀ {a b c : List Char}, strListLe a b = true → strListLe b c = true →
      strListLe a c = true
  | [], _, _, _, _ => rfl
  | _ :: _, [], _, h, _ => by simp [strListLe] at h
  | _ :: _, _ :: _, [], _, h => by simp [strListLe] at h
  | a :: as, b :: bs, c :: cs, h1, h2 => by
    simp only [strListLe] at h1 h2 ⊢
    rcases Nat.lt_trichotomy a.toNat b.toNat with hab | hab | hab
    · rcases Nat.lt_trichotomy b.toNat c.toNat with hbc | hbc | hbc
      · simp [Nat.lt_trans hab hbc]
      · simp [show a.toNat < c.toNat by omega]
      · rw [if_neg (by omega), if_pos hbc] at h2
        exact absurd h2 (by simp)
    · rcases Nat.lt_trichotomy b.toNat c.toNat with hbc | hbc | hbc
      · simp [show a.toNat < c.toNat by omega]
      · rw [if_neg (by omega), if_neg (by omega)] at h1 h2
        rw [if_neg (by omega), if_neg (by omega)]
        exact strListLe_trans h1 h2
      · rw [if_neg (by omega), if_pos hbc] at h2
        exact absurd h2 (by simp)
    · rw [if_neg (by omega), if_pos hab] at h1
      exact absurd h1 (by simp)

/-- Transitivity of the TEXT comparison. -/
theorem strLe_trans {a b c : String} (h1 : strLe a b = true) (h2 : strLe b c = true) :
    strLe a c = true := strListLe_trans h1 h2

instance : IsTrans String (fun a b => strLe a b = true) := ⟨fun _ _ _ => strLe_trans⟩

/-- The rows of the table after one INSERT. -/
theorem save_message_rows (db : ChatDB) (sid role content t : String) :
    (save_message db sid role content t).rows =
      db.rows ++ [⟨db.nextId, sid, role, content, t⟩] := rfl

/-- When the session's rows are already in timestamp order, the stable
sort of `ORDER BY timestamp` leaves them in place. -/
theorem load_rows_eq_filter (db : ChatDB) (sid : String)
    (h : (db.rows.filter (fun r => r.session_id == sid)).Pairwise rowLe) :
    load_rows db sid = db.rows.filter (fun r => r.session_id == sid) :=
  List.Sorted.insertionSort_eq h

/-- `load_chat_history` on a table whose session rows are already in
timestamp order is the projection of those rows in insertion order. -/
theorem load_chat_history_eq_filter (db : ChatDB) (sid : String)
    (h : (db.rows.filter (fun r => r.session_id == sid)).Pairwise rowLe) :
    load_chat_history db sid =
      (db.rows.filter (fun r => r.session_id == sid)).map
        (fun r => (r.role, r.content, r.timestamp)) := by
  unfold load_chat_history
  rw [load_rows_eq_filter db sid h]

/-- A session no row belongs to is filtered to nothing. -/
theorem filter_eq_nil_of_not_mem (db : ChatDB) (sid : String)
    (h : ∀ r ∈ db.rows, r.session_id ≠ sid) :
    db.rows.filter (fun r => r.session_id == sid) = [] :=
  List.filter_eq_nil_iff.mpr (fun r hr => by simpa using h r hr)

/-- The prompt history is exactly the session's LangChain store rows as
(role, content) pairs. -/
theorem promptHistory_eq_storePairs (st : AppState) :
    promptHistory st = storePairs st := by
  unfold promptHistory storePairs loadMessageStore
  rw [List.map_map]
  rfl

/-- Invariant along failure-free executions: the `chat` table and the
LangChain `message_store` hold the same (role, content) sequence for the
current session (up to the `user`/`human` and `assistant`/`ai` role
naming), and the table's rows carry non-decreasing timestamps. -/
theorem reachOk_inv {st : AppState} (h : ReachOk st) :
    chatPairs st = storePairs st ∧ st.chatDB.rows.Pairwise rowLe := by
  induction h with
  | init sid => exact ⟨rfl, List.Pairwise.nil⟩
  | step st input resp t1 t2 u1 u2 hr hne ht1 ht12 ih =>
    obtain ⟨hsync, hpw⟩ := ih
    constructor
    · unfold chatPairs storePairs at hsync ⊢
      simp only [submit_success, save_message, List.filter_append, List.map_append,
        List.append_assoc]
      rw [hsync]
      congr 1
      simp [roleToLC, LCMsg.toPair]
    · simp only [submit_success, save_message]
      refine List.pairwise_append.mpr ⟨?_, ?_, ?_⟩
      · refine List.pairwise_append.mpr ⟨hpw, List.pairwise_singleton _ _, ?_⟩
        intro a ha b hb
        rw [List.mem_singleton] at hb
        subst hb
        exact ht1 a ha
      · exact List.pairwise_singleton _ _
      · intro a ha b hb
        rw [List.mem_singleton] at hb
        subst hb
        rcases List.mem_append.mp ha with ha' | ha'
        · exact strLe_trans (ht1 a ha') ht12
        · rw [List.mem_singleton] at ha'
          subst ha'
          exact ht12
  | reset st newId hr h1 h2 ih =>
    refine ⟨?_, ih.2⟩
    have e1 : st.chatDB.rows.filter (fun r => r.session_id == newId) = [] :=
      List.filter_eq_nil_iff.mpr (fun r hr' => by simpa using h1 r hr')
    have e2 : st.msgStore.filter (fun p => p.1 == newId) = [] :=
      List.filter_eq_nil_iff.mpr (fun p hp => by simpa using h2 p hp)
    simp [chatPairs, storePairs, reset_chat, e1, e2]

/-- Unfolding the N sequential INSERTs: the table grows by the new rows,
ids assigned consecutively from the old auto-increment counter. -/
theorem appendTurns_rows (sid : String) :
    ∀ (msgs : List (String × String × String)) (db : ChatDB),
      (appendTurns db sid msgs).rows = db.rows ++ mkRows db.nextId sid msgs
  | [], db => by simp [appendTurns, mkRows]
  | m :: ms, db => by
    have ih := appendTurns_rows sid ms (save_message db sid m.1 m.2.1 m.2.2)
    simp only [appendTurns, List.foldl_cons] at ih ⊢
    rw [ih]
    simp [save_message, mkRows]

/-- All rows `mkRows` creates belong to the session. -/
theorem mkRows_filter (sid : String) :
    ∀ (msgs : List (String × String × String)) (n : Nat),
      (mkRows n sid msgs).filter (fun r => r.session_id == sid) = mkRows n sid msgs
  | [], _ => rfl
  | m :: ms, n => by
    simp [mkRows, List.filter_cons, mkRows_filter sid ms (n + 1)]

/-- Projecting the created rows back to (role, content, timestamp)
returns the appended triples. -/
theorem mkRows_map_proj (sid : String) :
    ∀ (msgs : List (String × String × String)) (n : Nat),
      (mkRows n sid msgs).map (fun r => (r.role, r.content, r.timestamp)) = msgs
  | [], _ => rfl
  | m :: ms, n => by
    simp [mkRows, mkRows_map_proj sid ms (n + 1)]

/-- The timestamps of the created rows are the appended timestamps. -/
theorem mkRows_map_ts (sid : String) :
    ∀ (msgs : List (String × String × String)) (n : Nat),
      (mkRows n sid msgs).map ChatRow.timestamp = msgs.map (fun m => m.2.2)
  | [], _ => rfl
  | m :: ms, n => by
    simp [mkRows, mkRows_map_ts sid ms (n + 1)]

/-- Row order by timestamp follows from order of the timestamp column. -/
theorem pairwise_rowLe_of_ts {l : List ChatRow}
    (h : (l.map ChatRow.timestamp).Pairwise (fun a b => strLe a b = true)) :
    l.Pairwise rowLe := by
  rw [List.pairwise_map] at h
  exact h

/-! Claim theorems. -/

/-- C3: for every session with no prior rows, N sequential
`save_message(S, role_i, content_i)` calls (store-assigned timestamps
non-decreasing, as CURRENT_TIMESTAMP is under single-writer access) make
`load_chat_history(S)` return exactly those N turns, in append order,
with role and content (and timestamp) preserved exactly. -/
theorem load_after_sequential_appends (db : ChatDB) (sid : String)
    (msgs : List (String × String × String))
    (hempty : db.rows.filter (fun r => r.session_id == sid) = [])
    (hmono : (msgs.map (fun m => m.2.2)).Chain' (fun a b => strLe a b = true)) :
    load_chat_history (appendTurns db sid msgs) sid = msgs ∧
    (load_chat_history (appendTurns db sid msgs) sid).length = msgs.length := by
  have hrows := appendTurns_rows sid msgs db
  have hfilt : (appendTurns db sid msgs).rows.filter (fun r => r.session_id == sid)
      = mkRows db.nextId sid msgs := by
    rw [hrows, List.filter_append, hempty, List.nil_append, mkRows_filter]
  have hpw : (mkRows db.nextId sid msgs).Pairwise rowLe := by
    apply pairwise_rowLe_of_ts
    rw [mkRows_map_ts]
    exact List.chain'_iff_pairwise.mp hmono
  have hmain : load_chat_history (appendTurns db sid msgs) sid = msgs := by
    rw [load_chat_history_eq_filter _ _ (by rw [hfilt]; exact hpw), hfilt, mkRows_map_proj]
  exact ⟨hmain, by rw [hmain]⟩

/-- Witness for C3 at a concrete two-turn session. -/
theorem load_after_sequential_appends_witness :
    (ChatDB.empty.rows.filter (fun r => r.session_id == "s1") = []) ∧
    load_chat_history (appendTurns ChatDB.empty "s1"
        [("user", "Hi", "2024-01-01 00:00:00"), ("assistant", "Hello", "2024-01-01 00:00:01")]) "s1"
      = [("user", "Hi", "2024-01-01 00:00:00"), ("assistant", "Hello", "2024-01-01 00:00:01")] :=
  ⟨by decide,
   (load_after_sequential_appends ChatDB.empty "s1"
      [("user", "Hi", "2024-01-01 00:00:00"), ("assistant", "Hello", "2024-01-01 00:00:01")]
      (by decide)
      (by simp only [List.map_cons, List.map_nil, List.chain'_cons, List.chain'_singleton,
            and_true]
          decide)).1⟩

/-- C4: the assembled prompt always has the fixed system instruction
first, the history unchanged in the middle (in its given chronological
order), and the new user message last, for every history including the
empty one. -/
theorem prompt_structure (history : List (String × String)) (user_message : String) :
    (build_prompt history user_message).head? = some ("system", system_instruction) ∧
    (build_prompt history user_message).getLast? = some ("human", user_message) ∧
    ((build_prompt history user_message).drop 1).dropLast = history ∧
    (build_prompt history user_message).length = history.length + 2 := by
  refine ⟨rfl, ?_, ?_, ?_⟩
  · show (("system", system_instruction) :: (history ++ [("human", user_message)])).getLast? = _
    rw [← List.cons_append, List.getLast?_concat]
  · show ((("system", system_instruction) :: (history ++ [("human", user_message)])).drop 1).dropLast
        = history
    rw [List.drop_succ_cons, List.drop_zero, List.dropLast_concat]
  · simp [build_prompt]

/-- C5: export renders each stored turn as `ROLE[timestamp]: content`
(role uppercased), joining turns with one blank line, and on the two-turn
session of the claim it produces exactly the stated text. -/
theorem export_formatting :
    export_text (load_chat_history
        (save_message (save_message ChatDB.empty "s1" "user" "Hi" "2024-01-01 00:00:00")
          "s1" "assistant" "Hello" "2024-01-01 00:00:01") "s1")
      = "USER[2024-01-01 00:00:00]: Hi\n\nASSISTANT[2024-01-01 00:00:01]: Hello" ∧
    ∀ (role content ts : String) (rest : List (String × String × String)),
      export_text ((role, content, ts) :: rest)
        = (py_upper role ++ "[" ++ ts ++ "]: " ++ content)
          ++ (if rest = [] then "" else "\n\n" ++ export_text rest) := by
  constructor
  · decide
  · intro role content ts rest
    cases rest with
    | nil => simp [export_text, py_join]
    | cons b bs => simp [export_text, py_join, String.append_assoc]

/-- Counterexample to C6 as stated: a whitespace-only submission (one
space) is truthy in Python, so the handler body runs and rows are
appended to the `chat` table — the store does change. -/
theorem whitespace_submission_processed :
    (submit (initState "s1") " " "2024-01-01 00:00:00" "2024-01-01 00:00:00"
        "2024-01-01 00:00:00" "2024-01-01 00:00:00"
        (fun _ => Except.ok "resp")).2.chatDB.rows
      ≠ (initState "s1").chatDB.rows := by
  decide

/-- C6 (amended): only the genuinely empty input is a no-op — the handler
guard `if submit_button and user_input:` skips the body exactly when the
input string is empty, performing no append and never consulting the
upstream oracle; whitespace-only non-empty input is processed normally. -/
theorem empty_submission_noop (st : AppState) (t1 t2 u1 u2 : String)
    (oracle : List (String × String) → Except String String) :
    submit st "" t1 t2 u1 u2 oracle = (none, st) := by
  simp [submit]

/-- C7: under the store invariant (ids strictly increasing, timestamps
non-decreasing in insertion order), the row sequence visited by `load` is
ordered by timestamp ascending with ties in id (insertion) order;
`load_chat_history` is its (role, content, timestamp) projection. -/
theorem load_order_with_ties (db : ChatDB) (sid : String)
    (h : db.rows.Pairwise (fun a b => a.id < b.id ∧ strLe a.timestamp b.timestamp = true)) :
    (load_rows db sid).Pairwise (fun a b =>
      (strLe a.timestamp b.timestamp = true ∧ a.timestamp ≠ b.timestamp) ∨
      (a.timestamp = b.timestamp ∧ a.id < b.id)) := by
  have hf : (db.rows.filter (fun r => r.session_id == sid)).Pairwise
      (fun a b => a.id < b.id ∧ strLe a.timestamp b.timestamp = true) :=
    h.sublist (List.filter_sublist db.rows)
  have hpw : (db.rows.filter (fun r => r.session_id == sid)).Pairwise rowLe :=
    hf.imp (fun hab => hab.2)
  rw [load_rows, List.Sorted.insertionSort_eq hpw]
  refine hf.imp ?_
  intro a b hab
  by_cases hts : a.timestamp = b.timestamp
  · exact Or.inr ⟨hts, hab.1⟩
  · exact Or.inl ⟨hab.2, hts⟩

/-- Witness for C7: two turns written within the same CURRENT_TIMESTAMP
second keep their insertion (id) order. -/
theorem load_order_with_ties_witness :
    ((ChatDB.mk [ChatRow.mk 0 "s1" "user" "Hi" "2024-01-01 00:00:00",
        ChatRow.mk 1 "s1" "assistant" "Hello" "2024-01-01 00:00:00"] 2).rows.Pairwise
      (fun a b => a.id < b.id ∧ strLe a.timestamp b.timestamp = true)) ∧
    (load_rows (ChatDB.mk [ChatRow.mk 0 "s1" "user" "Hi" "2024-01-01 00:00:00",
        ChatRow.mk 1 "s1" "assistant" "Hello" "2024-01-01 00:00:00"] 2) "s1").Pairwise
      (fun a b =>
        (strLe a.timestamp b.timestamp = true ∧ a.timestamp ≠ b.timestamp) ∨
        (a.timestamp = b.timestamp ∧ a.id < b.id)) :=
  ⟨by decide,
   load_order_with_ties (ChatDB.mk [ChatRow.mk 0 "s1" "user" "Hi" "2024-01-01 00:00:00",
      ChatRow.mk 1 "s1" "assistant" "Hello" "2024-01-01 00:00:00"] 2) "s1" (by decide)⟩

/-- C8: New Chat only replaces the session id (with a fresh uuid, assumed
distinct and unused) and clears the display cache: the new id differs
from the old, its history loads empty, and the `chat` table is untouched,
so every prior turn stays retrievable under its original session id. -/
theorem reset_chat_behavior (st : AppState) (newId : String)
    (h1 : newId ≠ st.session_id)
    (h2 : ∀ r ∈ st.chatDB.rows, r.session_id ≠ newId) :
    (reset_chat st newId).session_id ≠ st.session_id ∧
    load_chat_history (reset_chat st newId).chatDB newId = [] ∧
    (reset_chat st newId).chatDB = st.chatDB ∧
    (∀ sid : String, load_chat_history (reset_chat st newId).chatDB sid
        = load_chat_history st.chatDB sid) := by
  refine ⟨h1, ?_, rfl, fun _ => rfl⟩
  show load_chat_history st.chatDB newId = []
  unfold load_chat_history load_rows
  rw [filter_eq_nil_of_not_mem st.chatDB newId h2]
  rfl

/-- Witness for C8 on a one-turn session reset to a fresh id. -/
theorem reset_chat_behavior_witness :
    (("s2" : String) ≠ "s1" ∧
      ∀ r ∈ (AppState.mk "s1"
          (ChatDB.mk [ChatRow.mk 0 "s1" "user" "Hi" "2024-01-01 00:00:00"] 1) [] []).chatDB.rows,
        r.session_id ≠ "s2") ∧
    load_chat_history (reset_chat (AppState.mk "s1"
        (ChatDB.mk [ChatRow.mk 0 "s1" "user" "Hi" "2024-01-01 00:00:00"] 1) [] []) "s2").chatDB "s2"
      = [] ∧
    (reset_chat (AppState.mk "s1"
        (ChatDB.mk [ChatRow.mk 0 "s1" "user" "Hi" "2024-01-01 00:00:00"] 1) [] []) "s2").chatDB
      = (AppState.mk "s1"
        (ChatDB.mk [ChatRow.mk 0 "s1" "user" "Hi" "2024-01-01 00:00:00"] 1) [] []).chatDB :=
  ⟨⟨by decide, by decide⟩,
   (reset_chat_behavior (AppState.mk "s1"
       (ChatDB.mk [ChatRow.mk 0 "s1" "user" "Hi" "2024-01-01 00:00:00"] 1) [] []) "s2"
       (by decide) (by decide)).2.1,
   (reset_chat_behavior (AppState.mk "s1"
       (ChatDB.mk [ChatRow.mk 0 "s1" "user" "Hi" "2024-01-01 00:00:00"] 1) [] []) "s2"
       (by decide) (by decide)).2.2.1⟩

/-- C9: loading a session with no rows — in particular an identifier
never seen before — returns the empty sequence; `load_chat_history` is a
total function, so no error is possible. -/
theorem load_empty_session (db : ChatDB) (sid : String)
    (h : ∀ r ∈ db.rows, r.session_id ≠ sid) :
    load_chat_history db sid = [] := by
  unfold load_chat_history load_rows
  rw [filter_eq_nil_of_not_mem db sid h]
  rfl

/-- Witness for C9 on a non-empty table and an unknown session id. -/
theorem load_empty_session_witness :
    (∀ r ∈ (ChatDB.mk [ChatRow.mk 0 "s1" "user" "Hi" "2024-01-01 00:00:00"] 1).rows,
      r.session_id ≠ "nowhere") ∧
    load_chat_history (ChatDB.mk [ChatRow.mk 0 "s1" "user" "Hi" "2024-01-01 00:00:00"] 1) "nowhere"
      = [] :=
  ⟨by decide,
   load_empty_session (ChatDB.mk [ChatRow.mk 0 "s1" "user" "Hi" "2024-01-01 00:00:00"] 1)
     "nowhere" (by decide)⟩

/-- Counterexample to C1 as stated: on the very first submission ("Hi" on
a fresh session), the user turn is saved to the `chat` table before the
prompt is built, but LangChain's `message_store` — the actual source of
the prompt history — does not hold it yet, so the history supplied to the
prompt (here empty) differs from `load(session_id)` with the timestamp
dropped (here one user turn). -/
theorem prompt_history_counterexample :
    promptHistory (initState "s1") ≠
      ((load_chat_history (save_message (initState "s1").chatDB "s1" "user" "Hi"
          "2024-01-01 00:00:00") "s1").map (fun p => (p.1, p.2.1))) := by
  decide

/-- C1 (amended): along failure-free executions, at every prompt build
the history supplied to the Prompt Assembler equals the sequence returned
by `load(session_id)` at that moment with the timestamp dropped, the
stored `user`/`assistant` role names mapped to LangChain's `human`/`ai`,
and the final element — the just-persisted current user turn — removed
(equivalently, that projection equals the prompt history plus the current
user message); no other filtering, truncation, or summarization occurs. -/
theorem prompt_history_amended (st : AppState) (hr : ReachOk st) (input t1 : String)
    (ht : ∀ r ∈ st.chatDB.rows, strLe r.timestamp t1 = true) :
    ((load_chat_history (save_message st.chatDB st.session_id "user" input t1)
        st.session_id).map (fun p => (roleToLC p.1, p.2.1)))
      = promptHistory st ++ [("human", input)] := by
  obtain ⟨hsync, hpw⟩ := reachOk_inv hr
  have hfilt : ((save_message st.chatDB st.session_id "user" input t1).rows.filter
      (fun r => r.session_id == st.session_id))
      = st.chatDB.rows.filter (fun r => r.session_id == st.session_id)
        ++ [⟨st.chatDB.nextId, st.session_id, "user", input, t1⟩] := by
    simp [save_message, List.filter_append]
  have hpwf : (st.chatDB.rows.filter (fun r => r.session_id == st.session_id)).Pairwise
      rowLe := hpw.sublist (List.filter_sublist _)
  have hpw2 : ((save_message st.chatDB st.session_id "user" input t1).rows.filter
      (fun r => r.session_id == st.session_id)).Pairwise rowLe := by
    rw [hfilt]
    refine List.pairwise_append.mpr ⟨hpwf, List.pairwise_singleton _ _, ?_⟩
    intro a ha b hb
    rw [List.mem_singleton] at hb
    subst hb
    exact ht a (List.mem_of_mem_filter ha)
  rw [load_chat_history_eq_filter _ _ hpw2, hfilt, List.map_append, List.map_append,
    promptHistory_eq_storePairs, ← hsync]
  unfold chatPairs
  simp only [List.map_map]
  rfl

/-- Witness for C1 (amended) after one successful exchange: the prompt
history for the second submission is the mapped load projection minus the
just-saved user turn. -/
theorem prompt_history_amended_witness :
    ReachOk (submit_success (initState "s1") "Hi" "Hello" "2024-01-01 00:00:00"
      "2024-01-01 00:00:01" "2024-01-01 00:00:00" "2024-01-01 00:00:01") ∧
    ((load_chat_history (save_message (submit_success (initState "s1") "Hi" "Hello"
          "2024-01-01 00:00:00" "2024-01-01 00:00:01" "2024-01-01 00:00:00"
          "2024-01-01 00:00:01").chatDB "s1" "user" "Next question" "2024-01-01 00:00:05")
        "s1").map (fun p => (roleToLC p.1, p.2.1)))
      = promptHistory (submit_success (initState "s1") "Hi" "Hello" "2024-01-01 00:00:00"
          "2024-01-01 00:00:01" "2024-01-01 00:00:00" "2024-01-01 00:00:01")
        ++ [("human", "Next question")] :=
  ⟨ReachOk.step (initState "s1") "Hi" "Hello" "2024-01-01 00:00:00" "2024-01-01 00:00:01"
      "2024-01-01 00:00:00" "2024-01-01 00:00:01" (ReachOk.init "s1") (by decide) (by decide)
      (by decide),
   prompt_history_amended
     (submit_success (initState "s1") "Hi" "Hello" "2024-01-01 00:00:00" "2024-01-01 00:00:01"
       "2024-01-01 00:00:00" "2024-01-01 00:00:01")
     (ReachOk.step (initState "s1") "Hi" "Hello" "2024-01-01 00:00:00" "2024-01-01 00:00:01"
       "2024-01-01 00:00:00" "2024-01-01 00:00:01" (ReachOk.init "s1") (by decide) (by decide)
       (by decide))
     "Next question" "2024-01-01 00:00:05" (by decide)⟩

/-- C2: when the completion call fails, the caller observes the error —
no silent success and no fabricated assistant turn.  The `chat` table
does keep the user turn with no assistant turn, but the exception
propagates out of the handler (Streamlit renders it as a visible error),
which is exactly the claim's "unless the failure is indicated" branch:
`message_store` is untouched and the display cache shows the pending user
question. -/
theorem failed_completion_observable (st : AppState) (input t1 t2 u1 u2 e : String)
    (oracle : List (String × String) → Except String String)
    (hne : input ≠ "")
    (herr : oracle (build_prompt (promptHistory st) input) = Except.error e) :
    (submit st input t1 t2 u1 u2 oracle).1 = some e ∧
    (submit st input t1 t2 u1 u2 oracle).2.chatDB.rows
      = st.chatDB.rows ++ [⟨st.chatDB.nextId, st.session_id, "user", input, t1⟩] ∧
    (submit st input t1 t2 u1 u2 oracle).2.msgStore = st.msgStore ∧
    (submit st input t1 t2 u1 u2 oracle).2.messages
      = st.messages ++ [("user", input, u1)] := by
  simp [submit, hne, herr, save_message]

/-- Witness for C2 with a concrete failing oracle. -/
theorem failed_completion_observable_witness :
    (("Hi" : String) ≠ "") ∧
    (submit (initState "s1") "Hi" "2024-01-01 00:00:00" "2024-01-01 00:00:01" "u1" "u2"
        (fun _ => Except.error "UpstreamError")).1 = some "UpstreamError" ∧
    (submit (initState "s1") "Hi" "2024-01-01 00:00:00" "2024-01-01 00:00:01" "u1" "u2"
        (fun _ => Except.error "UpstreamError")).2.msgStore = (initState "s1").msgStore :=
  ⟨by decide,
   (failed_completion_observable (initState "s1") "Hi" "2024-01-01 00:00:00"
       "2024-01-01 00:00:01" "u1" "u2" "UpstreamError" (fun _ => Except.error "UpstreamError")
       (by decide) rfl).1,
   (failed_completion_observable (initState "s1") "Hi" "2024-01-01 00:00:00"
       "2024-01-01 00:00:01" "u1" "u2" "UpstreamError" (fun _ => Except.error "UpstreamError")
       (by decide) rfl).2.2.1⟩

/-- C10: a successfully processed non-empty submission appends exactly
two rows to the `chat` table — first `user` with the submitted text, then
`assistant` with the completion text, with consecutive store-assigned
ids — and no submission (succeeding, failing, or empty) ever writes a
row whose role is outside {user, assistant}. -/
theorem submit_appends_user_then_assistant (st : AppState) (input resp t1 t2 u1 u2 : String)
    (oracle : List (String × String) → Except String String)
    (hne : input ≠ "")
    (hok : oracle (build_prompt (promptHistory st) input) = Except.ok resp) :
    (submit st input t1 t2 u1 u2 oracle).2.chatDB.rows
      = st.chatDB.rows ++
        [⟨st.chatDB.nextId, st.session_id, "user", input, t1⟩,
         ⟨st.chatDB.nextId + 1, st.session_id, "assistant", resp, t2⟩] ∧
    ∀ (input' t1' t2' u1' u2' : String)
      (oracle' : List (String × String) → Except String String),
      ∀ r ∈ (submit st input' t1' t2' u1' u2' oracle').2.chatDB.rows,
        r ∈ st.chatDB.rows ∨ r.role = "user" ∨ r.role = "assistant" := by
  constructor
  · simp [submit, hne, hok, submit_success, save_message]
  · intro input' t1' t2' u1' u2' oracle' r hr
    unfold submit at hr
    by_cases h' : input' = ""
    · rw [if_pos h'] at hr
      exact Or.inl hr
    · rw [if_neg h'] at hr
      cases ho : oracle' (build_prompt (promptHistory st) input') with
      | error e =>
        rw [ho] at hr
        simp only [save_message, List.mem_append, List.mem_singleton] at hr
        rcases hr with hr | hr
        · exact Or.inl hr
        · subst hr
          exact Or.inr (Or.inl rfl)
      | ok resp' =>
        rw [ho] at hr
        simp only [submit_success, save_message, List.append_assoc, List.mem_append,
          List.mem_singleton] at hr
        rcases hr with hr | hr | hr
        · exact Or.inl hr
        · subst hr
          exact Or.inr (Or.inl rfl)
        · subst hr
          exact Or.inr (Or.inr rfl)

/-- Witness for C10 with a concrete succeeding oracle. -/
theorem submit_appends_user_then_assistant_witness :
    (("Hi" : String) ≠ "") ∧
    (submit (initState "s1") "Hi" "2024-01-01 00:00:00" "2024-01-01 00:00:01" "u1" "u2"
        (fun _ => Except.ok "Hello")).2.chatDB.rows
      = (initState "s1").chatDB.rows ++
        [⟨(initState "s1").chatDB.nextId, "s1", "user", "Hi", "2024-01-01 00:00:00"⟩,
         ⟨(initState "s1").chatDB.nextId + 1, "s1", "assistant", "Hello",
           "2024-01-01 00:00:01"⟩] :=
  ⟨by decide,
   (submit_appends_user_then_assistant (initState "s1") "Hi" "Hello" "2024-01-01 00:00:00"
       "2024-01-01 00:00:01" "u1" "u2" (fun _ => Except.ok "Hello") (by decide) rfl).1⟩
